import Mathlib

/-!
Verification of the pyworker `Backend`/`Metrics` engine.

The definitions below are a shallow embedding of `lib/backend.py`,
`lib/metrics.py` and `lib/data_types.py`:

* Python floats are modelled as rationals (`Rat`).
* Python sets of ints are modelled as `Finset Int`.
* The RSA verification primitive, base64 decoding and the fetched public
  key are parameters (oracles): the code calls into `pycryptodome`, whose
  internals are outside this repository.  Everything the repository itself
  computes (the canonical JSON message, the staleness / replay window, the
  state updates) is embedded faithfully.
* Wall-clock readings (`time.time()`), disk usage (`psutil`) and the
  outcome of network calls are passed in as explicit arguments.
-/

/-! ## Data model: `lib/data_types.py` -/

/-- `AuthData` from `lib/data_types.py`: data used to authenticate the
requester.  Field order matches the dataclass declaration order. -/
structure AuthData where
  signature : String
  cost : String
  endpoint : String
  reqnum : Int
  url : String
deriving DecidableEq, Repr

/-- The dict built in `Backend.__check_signature`:
`dataclasses.asdict(auth_data)` with the `signature` key removed.  Key
order (cost, endpoint, reqnum, url) is the dataclass declaration order,
which `asdict` and the dict comprehension preserve. -/
structure AuthMessage where
  cost : String
  endpoint : String
  reqnum : Int
  url : String
deriving DecidableEq, Repr

/-- Removing the `signature` key from the asdict of an `AuthData`. -/
def authMessageOf (auth_data : AuthData) : AuthMessage :=
  { cost := auth_data.cost
    endpoint := auth_data.endpoint
    reqnum := auth_data.reqnum
    url := auth_data.url }

/-! ## Python's `json.dumps(message, indent=4)`

`Backend.__check_signature` serializes the message dict with
`json.dumps(message, indent=4)` (default `ensure_ascii=True`,
default separators, which for an indented dump are `","` and `": "`).
The following definitions embed CPython's `json` encoder for the shape
of dict that actually occurs: string keys with string or int values. -/

/-- Lower-case hex digit, as produced by CPython's `"\\u%04x"` formatting. -/
def hexDigit (n : Nat) : Char :=
  if n < 10 then Char.ofNat (48 + n) else Char.ofNat (87 + n)

/-- Four lower-case hex digits, as produced by `"\\u%04x"`. -/
def toHex4 (n : Nat) : String :=
  String.mk [hexDigit (n / 4096 % 16), hexDigit (n / 256 % 16),
             hexDigit (n / 16 % 16), hexDigit (n % 16)]

/-- CPython `json.encoder.py_encode_basestring_ascii`, per character:
`"` and `\` get two-character escapes, the common control characters get
their short escapes, every other character outside `0x20..0x7e` becomes a
`\uXXXX` escape (a surrogate pair above `0xffff`), and printable ASCII is
emitted verbatim. -/
def pyEscapeChar (c : Char) : String :=
  if c = Char.ofNat 34 then "\\\""
  else if c = Char.ofNat 92 then "\\\\"
  else if 32 ≤ c.toNat ∧ c.toNat ≤ 126 then String.mk [c]
  else if c = Char.ofNat 8 then "\\b"
  else if c = Char.ofNat 9 then "\\t"
  else if c = Char.ofNat 10 then "\\n"
  else if c = Char.ofNat 12 then "\\f"
  else if c = Char.ofNat 13 then "\\r"
  else if c.toNat < 65536 then "\\u" ++ toHex4 c.toNat
  else
    "\\u" ++ toHex4 (55296 + (c.toNat - 65536) / 1024)
      ++ "\\u" ++ toHex4 (56320 + (c.toNat - 65536) % 1024)

/-- A JSON string literal as CPython's encoder renders it. -/
def pyJsonQuote (s : String) : String :=
  "\"" ++ String.join (s.data.map pyEscapeChar) ++ "\""

/-- The JSON scalar values that occur in the auth message dict. -/
inductive PyJson where
  | str (s : String)
  | int (n : Int)
deriving DecidableEq, Repr

/-- Rendering of one scalar value. -/
def pyJsonScalar : PyJson → String
  | .str s => pyJsonQuote s
  | .int n => toString n

/-- The comma-joined, 4-space-indented entry block of
`json.dumps(dict, indent=4)`. -/
def pyDumpsEntries : List (String × PyJson) → String
  | [] => ""
  | [(k, v)] => "    " ++ pyJsonQuote k ++ ": " ++ pyJsonScalar v
  | (k, v) :: rest =>
      "    " ++ pyJsonQuote k ++ ": " ++ pyJsonScalar v ++ ",\n"
        ++ pyDumpsEntries rest

/-- `json.dumps(d, indent=4)` for a dict of scalars, preserving the
dict's key order. -/
def pyDumpsIndent4 (items : List (String × PyJson)) : String :=
  if items.isEmpty then "\x7b\x7d"
  else "\x7b\n" ++ pyDumpsEntries items ++ "\n\x7d"

/-- The exact string `Backend.__check_signature` passes to
`verify_signature`: `json.dumps(message, indent=4)` where `message` is the
auth dict minus `signature`, keys in declaration order. -/
def authMessageJson (m : AuthMessage) : String :=
  pyDumpsIndent4
    [("cost", .str m.cost), ("endpoint", .str m.endpoint),
     ("reqnum", .int m.reqnum), ("url", .str m.url)]

/-- The canonical auth message as the specification words it: 4-space
indentation, `": "` key-value separator, keys in declaration order
`cost, endpoint, reqnum, url`, signature field omitted. -/
def specCanonicalJson (m : AuthMessage) : String :=
  "\x7b\n    \"cost\": " ++ pyJsonQuote m.cost
    ++ ",\n    \"endpoint\": " ++ pyJsonQuote m.endpoint
    ++ ",\n    \"reqnum\": " ++ toString m.reqnum
    ++ ",\n    \"url\": " ++ pyJsonQuote m.url
    ++ "\n\x7d"

/-! ## The authenticator: `Backend.__check_signature` -/

/-- `MSG_HISTORY_LEN` from `lib/backend.py`. -/
def MSG_HISTORY_LEN : Nat := 100

/-- The authenticator's process-wide state: `Backend.reqnum` (initially
`-1`) and `Backend.msg_history` (initially empty). -/
structure AuthState where
  reqnum : Int
  msg_history : List AuthMessage
deriving DecidableEq, Repr

/-- Python's `l[-n:]`: the last at-most-`n` elements of a list. -/
def lastN (n : Nat) (l : List α) : List α :=
  l.drop (l.length - n)

/-- The nested `verify_signature` of `Backend.__check_signature`.
`pubkey` is `Backend.PUBLIC_KEY` (None when fetching failed), `rsaOk`
models a successful `pkcs1_15.new(key).verify(SHA256.new(bytes), sig)`,
and `b64decode` models `base64.b64decode` (`none` when it raises, which
the `except (ValueError, TypeError)` turns into `False`). -/
def verify_signature {PK : Type} (pubkey : Option PK)
    (rsaOk : PK → ByteArray → ByteArray → Bool)
    (b64decode : String → Option ByteArray)
    (message : String) (signature : String) : Bool :=
  match pubkey with
  | none => false
  | some key =>
    match b64decode signature with
    | none => false
    | some sigBytes => rsaOk key message.toUTF8 sigBytes

/-- `Backend.__check_signature`, returning the verdict together with the
updated authenticator state. -/
def check_signature {PK : Type} (pubkey : Option PK)
    (rsaOk : PK → ByteArray → ByteArray → Bool)
    (b64decode : String → Option ByteArray)
    (st : AuthState) (auth_data : AuthData) : Bool × AuthState :=
  let message := authMessageOf auth_data
  if auth_data.reqnum < st.reqnum - (MSG_HISTORY_LEN : Int) then
    (false, st)
  else if message ∈ st.msg_history then
    (false, st)
  else if verify_signature pubkey rsaOk b64decode
      (authMessageJson message) auth_data.signature then
    (true,
      { reqnum := max auth_data.reqnum st.reqnum
        msg_history := lastN MSG_HISTORY_LEN (st.msg_history ++ [message]) })
  else
    (false, st)

/-! ## Metrics data model: `SystemMetrics`, `ModelMetrics`, `Metrics` -/

/-- `SystemMetrics` from `lib/data_types.py`. -/
structure SystemMetrics where
  model_loading_start : Rat
  model_loading_time : Option Rat
  last_disk_usage : Rat
  additional_disk_usage : Rat
  model_is_loaded : Bool
deriving DecidableEq, Repr

/-- `SystemMetrics.empty`; `time.time()` and the current disk usage are
passed in. -/
def SystemMetrics.empty (now disk_usage : Rat) : SystemMetrics :=
  { model_loading_start := now
    model_loading_time := none
    last_disk_usage := disk_usage
    additional_disk_usage := 0
    model_is_loaded := false }

/-- `SystemMetrics.update_disk_usage`; the fresh `psutil` reading is
passed in. -/
def SystemMetrics.update_disk_usage (s : SystemMetrics)
    (disk_usage : Rat) : SystemMetrics :=
  { s with additional_disk_usage := disk_usage - s.last_disk_usage
           last_disk_usage := disk_usage }

/-- `SystemMetrics.reset`: the autoscaler expects `model_loading_time`
to be populated only once, so it is cleared. -/
def SystemMetrics.reset (s : SystemMetrics) : SystemMetrics :=
  { s with model_loading_time := none }

/-- `ModelMetrics` from `lib/data_types.py` (field names kept verbatim,
including the `requests_recieved` spelling). -/
structure ModelMetrics where
  workload_served : Rat
  workload_received : Rat
  workload_cancelled : Rat
  workload_errored : Rat
  workload_pending : Rat
  cur_perf : Rat
  error_msg : Option String
  max_throughput : Rat
  requests_recieved : Finset Int
  requests_working : Finset Int
deriving DecidableEq

/-- `ModelMetrics.empty`. -/
def ModelMetrics.empty : ModelMetrics :=
  { workload_served := 0
    workload_received := 0
    workload_cancelled := 0
    workload_errored := 0
    workload_pending := 0
    cur_perf := 0
    error_msg := none
    max_throughput := 0
    requests_recieved := ∅
    requests_working := ∅ }

/-- `ModelMetrics.workload_processing`. -/
def ModelMetrics.workload_processing (mm : ModelMetrics) : Rat :=
  max (mm.workload_received - mm.workload_cancelled) 0

/-- `ModelMetrics.reset`: zeroes `workload_served`, `workload_received`,
`workload_cancelled` and `workload_errored` (and nothing else). -/
def ModelMetrics.reset (mm : ModelMetrics) : ModelMetrics :=
  { mm with workload_served := 0
            workload_received := 0
            workload_cancelled := 0
            workload_errored := 0 }

/-- `ModelMetrics.set_errored`: `reset()` then record the error. -/
def ModelMetrics.set_errored (mm : ModelMetrics)
    (error_msg : String) : ModelMetrics :=
  { mm.reset with error_msg := some error_msg }

/-- `Metrics` from `lib/metrics.py` (the environment-derived fields
`id`, `report_addr` and `url` are plain data here). -/
structure Metrics where
  last_metric_update : Rat
  update_pending : Bool
  id : Int
  report_addr : String
  url : String
  system_metrics : SystemMetrics
  model_metrics : ModelMetrics
deriving DecidableEq

/-- A fresh `Metrics()` instance. -/
def Metrics.empty (id : Int) (report_addr url : String)
    (now disk_usage : Rat) : Metrics :=
  { last_metric_update := 0
    update_pending := false
    id := id
    report_addr := report_addr
    url := url
    system_metrics := SystemMetrics.empty now disk_usage
    model_metrics := ModelMetrics.empty }

/-! ## Metrics event hooks (`lib/metrics.py`), one Python statement per
update -/

/-- `Metrics._request_start`. -/
def Metrics.request_start (m : Metrics) (workload : Rat)
    (reqnum : Int) : Metrics :=
  let m := { m with model_metrics := { m.model_metrics with
    workload_pending := m.model_metrics.workload_pending + workload } }
  let m := { m with model_metrics := { m.model_metrics with
    workload_received := m.model_metrics.workload_received + workload } }
  let m := { m with model_metrics := { m.model_metrics with
    requests_recieved := insert reqnum m.model_metrics.requests_recieved } }
  { m with model_metrics := { m.model_metrics with
    requests_working := insert reqnum m.model_metrics.requests_working } }

/-- `Metrics._request_end`. -/
def Metrics.request_end (m : Metrics) (workload req_response_time : Rat)
    (reqnum : Int) : Metrics :=
  let m := { m with model_metrics := { m.model_metrics with
    workload_served := m.model_metrics.workload_served + workload } }
  let m := { m with model_metrics := { m.model_metrics with
    workload_pending := m.model_metrics.workload_pending - workload } }
  let m := { m with model_metrics := { m.model_metrics with
    requests_working := m.model_metrics.requests_working.erase reqnum } }
  let m := { m with model_metrics := { m.model_metrics with
    cur_perf := workload / req_response_time } }
  { m with update_pending := true }

/-- `Metrics._request_errored`. -/
def Metrics.request_errored (m : Metrics) (workload : Rat)
    (reqnum : Int) : Metrics :=
  let m := { m with model_metrics := { m.model_metrics with
    workload_pending := m.model_metrics.workload_pending - workload } }
  let m := { m with model_metrics := { m.model_metrics with
    workload_errored := m.model_metrics.workload_errored + workload } }
  { m with model_metrics := { m.model_metrics with
    requests_working := m.model_metrics.requests_working.erase reqnum } }

/-- `Metrics._request_canceled`. -/
def Metrics.request_canceled (m : Metrics) (workload : Rat)
    (reqnum : Int) : Metrics :=
  let m := { m with model_metrics := { m.model_metrics with
    workload_pending := m.model_metrics.workload_pending - workload } }
  let m := { m with model_metrics := { m.model_metrics with
    workload_cancelled := m.model_metrics.workload_cancelled + workload } }
  { m with model_metrics := { m.model_metrics with
    requests_working := m.model_metrics.requests_working.erase reqnum } }

/-- `Metrics._model_loaded`; the `time.time()` reading is passed in. -/
def Metrics.model_loaded (m : Metrics) (now max_throughput : Rat) : Metrics :=
  let m := { m with system_metrics := { m.system_metrics with
    model_loading_time :=
      some (now - m.system_metrics.model_loading_start) } }
  let m := { m with system_metrics := { m.system_metrics with
    model_is_loaded := true } }
  { m with model_metrics := { m.model_metrics with
    max_throughput := max_throughput } }

/-- `Metrics._model_errored`. -/
def Metrics.model_errored (m : Metrics) (error_msg : String) : Metrics :=
  let m := { m with model_metrics :=
    m.model_metrics.set_errored error_msg }
  { m with system_metrics := { m.system_metrics with
    model_is_loaded := true } }

/-! ## The autoscaler reporter (`lib/metrics.py`) -/

/-- `AutoScalaerData` from `lib/data_types.py` (name kept verbatim). -/
structure AutoScalaerData where
  id : Int
  loadtime : Rat
  cur_load : Rat
  error_msg : String
  max_perf : Rat
  cur_perf : Rat
  cur_capacity : Rat
  max_capacity : Rat
  num_requests_working : Nat
  num_requests_recieved : Nat
  additional_disk_usage : Rat
  url : String
deriving DecidableEq

/-- `compute_autoscaler_data` nested in `Metrics.__send_metrics_and_reset`.
Python's `x or 0.0` / `x or ""` on an optional is `Option.getD` here (both
agree when the payload is falsy: `0.0 or 0.0 == 0.0`, `"" or "" == ""`). -/
def Metrics.compute_autoscaler_data (m : Metrics)
    (elapsed : Rat) : AutoScalaerData :=
  { id := m.id
    loadtime := m.system_metrics.model_loading_time.getD 0
    cur_load := m.model_metrics.workload_processing / elapsed
    max_perf := m.model_metrics.max_throughput
    cur_perf := m.model_metrics.cur_perf
    error_msg := m.model_metrics.error_msg.getD ""
    num_requests_working := m.model_metrics.requests_working.card
    num_requests_recieved := m.model_metrics.requests_recieved.card
    additional_disk_usage := m.system_metrics.additional_disk_usage
    cur_capacity := 0
    max_capacity := 0
    url := m.url }

/-- `Metrics.__send_metrics_and_reset`: refresh the disk-usage delta,
build the report, then unconditionally clear `update_pending`, reset the
volatile model counters, reset the system metrics and stamp
`last_metric_update`.  `send_data` swallows every POST failure, so the
state change does not depend on whether the autoscaler received the
report; the built report is returned alongside the new state. -/
def Metrics.send_metrics_and_reset (m : Metrics)
    (elapsed now disk_usage : Rat) : AutoScalaerData × Metrics :=
  let m := { m with system_metrics :=
    m.system_metrics.update_disk_usage disk_usage }
  let data := m.compute_autoscaler_data elapsed
  let m := { m with update_pending := false }
  let m := { m with model_metrics := m.model_metrics.reset }
  let m := { m with system_metrics := m.system_metrics.reset }
  let m := { m with last_metric_update := now }
  (data, m)

/-- The send condition of one iteration of `Metrics._send_metrics_loop`:
send while loading as a keep-alive every 10s, and once loaded send when an
update is pending or the 10s cadence floor has elapsed. -/
def Metrics.should_send_update (m : Metrics) (elapsed : Rat) : Bool :=
  if m.system_metrics.model_is_loaded = false ∧ 10 ≤ elapsed then true
  else if m.update_pending ∨ 10 < elapsed then true
  else false

/-- One observed tick of the reporter on which the send condition fired:
the elapsed time used for `cur_load`, the wall clock and disk usage at
send time, and whether the POST to the autoscaler succeeded. -/
structure ReportTick where
  elapsed : Rat
  now : Rat
  disk_usage : Rat
  send_ok : Bool
deriving DecidableEq

/-- A run of reporter iterations: each tick builds a report and resets,
tagging the report with whether the autoscaler actually received it. -/
def Metrics.run_reports (m : Metrics) :
    List ReportTick → List (AutoScalaerData × Bool) × Metrics
  | [] => ([], m)
  | t :: ts =>
    let step := m.send_metrics_and_reset t.elapsed t.now t.disk_usage
    let rest := step.2.run_reports ts
    ((step.1, t.send_ok) :: rest.1, rest.2)

/-- The reports that the autoscaler actually received during a run. -/
def received_reports (l : List (AutoScalaerData × Bool)) :
    List AutoScalaerData :=
  (l.filter fun p => p.2).map Prod.fst

/-! ## Request-lifecycle metric events (for the conservation invariant) -/

/-- One metric event fired by the request lifecycle engine
(`Backend.__handle_request`): the four `Metrics._request_*` hooks. -/
inductive MetricEvent where
  | request_start (workload : Rat) (reqnum : Int)
  | request_end (workload req_response_time : Rat) (reqnum : Int)
  | request_errored (workload : Rat) (reqnum : Int)
  | request_canceled (workload : Rat) (reqnum : Int)
deriving DecidableEq

/-- Applying one event to the metrics state. -/
def MetricEvent.apply (m : Metrics) : MetricEvent → Metrics
  | .request_start w r => m.request_start w r
  | .request_end w dt r => m.request_end w dt r
  | .request_errored w r => m.request_errored w r
  | .request_canceled w r => m.request_canceled w r

/-- Applying a sequence of events in order. -/
def apply_events (m : Metrics) (evs : List MetricEvent) : Metrics :=
  evs.foldl MetricEvent.apply m

/-- The workload and request id of a terminal hook, `none` for a start. -/
def MetricEvent.term_data : MetricEvent → Option (Rat × Int)
  | .request_end w _ r => some (w, r)
  | .request_errored w r => some (w, r)
  | .request_canceled w r => some (w, r)
  | .request_start _ _ => none

/-- Legality of an event sequence: every terminal hook is preceded by a
`request_start` with the same workload and request id, and no two
terminal hooks share a request id (at most one terminal per start). -/
def legal_events (evs : List MetricEvent) : Bool :=
  ((List.range evs.length).all fun i =>
    match evs.get? i with
    | some e =>
      match e.term_data with
      | some (w, r) => decide (MetricEvent.request_start w r ∈ evs.take i)
      | none => true
    | none => true) &&
  decide (((evs.filterMap MetricEvent.term_data).map Prod.snd).Nodup)

/-- The conserved quantity behind the workload-conservation invariant. -/
def conserved (m : Metrics) : Rat :=
  m.model_metrics.workload_received - m.model_metrics.workload_served
    - m.model_metrics.workload_cancelled - m.model_metrics.workload_errored
    - m.model_metrics.workload_pending

/-! ## The benchmarker (`run_benchmark` in `Backend.__read_logs`) -/

/-- The observables of one benchmark API call: the payload's
`count_workload()` and the measured `time_elapsed`. -/
structure BenchmarkRun where
  workload : Rat
  time_elapsed : Rat
deriving DecidableEq

/-- The outcome of `run_benchmark`: its return value, how many calls it
made to the model API, and the (parsed) contents of
`.has_benchmark` afterwards. -/
structure BenchmarkOutcome where
  result : Rat
  num_api_calls : Nat
  file_after : Option Rat
deriving DecidableEq

/-- `run_benchmark` from `lib/backend.py`.  `benchmark_file` is the
parsed contents of `.has_benchmark` (`none` when `open` raises
`FileNotFoundError`); `runs i` gives the observables of the `i`-th call
of the measuring loop.  When the file exists the code makes a single
warm-up call and returns the stored float; otherwise it loops over runs
`0 .. benchmark_runs`, skips run 0, folds the running maximum starting
from `0`, writes the maximum back and returns it. -/
def run_benchmark (benchmark_file : Option Rat) (benchmark_runs : Nat)
    (runs : Nat → BenchmarkRun) : BenchmarkOutcome :=
  match benchmark_file with
  | some saved => { result := saved, num_api_calls := 1,
                    file_after := some saved }
  | none =>
    let throughputs := ((List.range (benchmark_runs + 1)).drop 1).map
      fun i => (runs i).workload / (runs i).time_elapsed
    let max_throughput := throughputs.foldl max 0
    { result := max_throughput
      num_api_calls := benchmark_runs + 1
      file_after := some max_throughput }

/-! ## The request lifecycle engine (`Backend.__handle_request`) -/

/-- The terminal outcome of the Forward / Cancel-watch race for one
authenticated request: a successful upstream call (with its measured
response time and the adapter's response status), an upstream transport
error, or a client disconnect. -/
inductive RequestOutcome where
  | success (req_response_time : Rat) (res_status : Nat)
  | upstream_error
  | client_cancel
deriving DecidableEq

/-- The sequential essence of `Backend.__handle_request` after the
payload has been parsed: authenticate first — on reject return 401
untouched — otherwise fire `request_start` and then exactly one terminal
hook according to the race outcome, returning the HTTP status and the
updated authenticator and metrics states. -/
def handle_request {PK : Type} (pubkey : Option PK)
    (rsaOk : PK → ByteArray → ByteArray → Bool)
    (b64decode : String → Option ByteArray)
    (st : AuthState) (m : Metrics) (auth_data : AuthData)
    (workload : Rat) (outcome : RequestOutcome) :
    Nat × AuthState × Metrics :=
  match check_signature pubkey rsaOk b64decode st auth_data with
  | (false, st2) => (401, st2, m)
  | (true, st2) =>
    let m1 := m.request_start workload auth_data.reqnum
    match outcome with
    | .success dt res => (res, st2, m1.request_end workload dt auth_data.reqnum)
    | .upstream_error => (500, st2, m1.request_errored workload auth_data.reqnum)
    | .client_cancel => (500, st2, m1.request_canceled workload auth_data.reqnum)

/-! # Theorems -/

/-- Claim C3: for every workload `w > 0`, duration `dt > 0` and request id
`r`, `request_start` adds `w` to both `workload_pending` and
`workload_received` and adds `r` to `requests_recieved` and
`requests_working`; `request_end` subtracts `w` from `workload_pending`,
adds `w` to `workload_served`, removes `r` from `requests_working` and
sets `cur_perf = w/dt`; `request_errored` subtracts `w` from
`workload_pending`, adds `w` to `workload_errored` and removes `r` from
`requests_working`; `request_canceled` subtracts `w` from
`workload_pending`, adds `w` to `workload_cancelled` and removes `r` from
`requests_working`; each hook leaves every other counter and set
unchanged, and only `request_end` changes `cur_perf`. -/
theorem metrics_hooks_c3 (m : Metrics) (w dt : Rat) (r : Int)
    (_hw : 0 < w) (_hdt : 0 < dt) :
    ((m.request_start w r).model_metrics.workload_pending
        = m.model_metrics.workload_pending + w
      ∧ (m.request_start w r).model_metrics.workload_received
        = m.model_metrics.workload_received + w
      ∧ (m.request_start w r).model_metrics.requests_recieved
        = insert r m.model_metrics.requests_recieved
      ∧ (m.request_start w r).model_metrics.requests_working
        = insert r m.model_metrics.requests_working
      ∧ (m.request_start w r).model_metrics.workload_served
        = m.model_metrics.workload_served
      ∧ (m.request_start w r).model_metrics.workload_cancelled
        = m.model_metrics.workload_cancelled
      ∧ (m.request_start w r).model_metrics.workload_errored
        = m.model_metrics.workload_errored
      ∧ (m.request_start w r).model_metrics.cur_perf
        = m.model_metrics.cur_perf)
    ∧ ((m.request_end w dt r).model_metrics.workload_pending
        = m.model_metrics.workload_pending - w
      ∧ (m.request_end w dt r).model_metrics.workload_served
        = m.model_metrics.workload_served + w
      ∧ (m.request_end w dt r).model_metrics.requests_working
        = m.model_metrics.requests_working.erase r
      ∧ (m.request_end w dt r).model_metrics.cur_perf = w / dt
      ∧ (m.request_end w dt r).model_metrics.workload_received
        = m.model_metrics.workload_received
      ∧ (m.request_end w dt r).model_metrics.workload_cancelled
        = m.model_metrics.workload_cancelled
      ∧ (m.request_end w dt r).model_metrics.workload_errored
        = m.model_metrics.workload_errored
      ∧ (m.request_end w dt r).model_metrics.requests_recieved
        = m.model_metrics.requests_recieved)
    ∧ ((m.request_errored w r).model_metrics.workload_pending
        = m.model_metrics.workload_pending - w
      ∧ (m.request_errored w r).model_metrics.workload_errored
        = m.model_metrics.workload_errored + w
      ∧ (m.request_errored w r).model_metrics.requests_working
        = m.model_metrics.requests_working.erase r
      ∧ (m.request_errored w r).model_metrics.workload_received
        = m.model_metrics.workload_received
      ∧ (m.request_errored w r).model_metrics.workload_served
        = m.model_metrics.workload_served
      ∧ (m.request_errored w r).model_metrics.workload_cancelled
        = m.model_metrics.workload_cancelled
      ∧ (m.request_errored w r).model_metrics.requests_recieved
        = m.model_metrics.requests_recieved
      ∧ (m.request_errored w r).model_metrics.cur_perf
        = m.model_metrics.cur_perf)
    ∧ ((m.request_canceled w r).model_metrics.workload_pending
        = m.model_metrics.workload_pending - w
      ∧ (m.request_canceled w r).model_metrics.workload_cancelled
        = m.model_metrics.workload_cancelled + w
      ∧ (m.request_canceled w r).model_metrics.requests_working
        = m.model_metrics.requests_working.erase r
      ∧ (m.request_canceled w r).model_metrics.workload_received
        = m.model_metrics.workload_received
      ∧ (m.request_canceled w r).model_metrics.workload_served
        = m.model_metrics.workload_served
      ∧ (m.request_canceled w r).model_metrics.workload_errored
        = m.model_metrics.workload_errored
      ∧ (m.request_canceled w r).model_metrics.requests_recieved
        = m.model_metrics.requests_recieved
      ∧ (m.request_canceled w r).model_metrics.cur_perf
        = m.model_metrics.cur_perf) := by
  exact ⟨⟨rfl, rfl, rfl, rfl, rfl, rfl, rfl, rfl⟩,
         ⟨rfl, rfl, rfl, rfl, rfl, rfl, rfl, rfl⟩,
         ⟨rfl, rfl, rfl, rfl, rfl, rfl, rfl, rfl⟩,
         ⟨rfl, rfl, rfl, rfl, rfl, rfl, rfl, rfl⟩⟩

/-- Witness for C3 at a concrete state and request. -/
theorem metrics_hooks_c3_witness :
    ((Metrics.empty 0 "" "" 0 0).request_start 2 1).model_metrics.workload_pending
      = (Metrics.empty 0 "" "" 0 0).model_metrics.workload_pending + 2 :=
  (metrics_hooks_c3 (Metrics.empty 0 "" "" 0 0) 2 1 1 (by norm_num)
    (by norm_num)).1.1

/-- Claim C5 (counterexample): `model_errored` does not reset all five
workload counters — `ModelMetrics.reset` leaves `workload_pending`
untouched.  Starting from a fresh state, `request_start 5 1` makes
`workload_pending = 5`, and after `model_errored` it is still `5`,
not `0`. -/
theorem model_errored_c5_counterexample :
    ¬ ((((Metrics.empty 0 "" "" 0 0).request_start 5 1).model_errored
      "oom").model_metrics.workload_pending = 0) := by
  norm_num [Metrics.empty, ModelMetrics.empty, SystemMetrics.empty,
    Metrics.request_start, Metrics.model_errored, ModelMetrics.set_errored,
    ModelMetrics.reset]

/-- Claim C5 (amended): for every error string `msg` and metrics state,
`model_errored msg` resets the four counters `workload_received`,
`workload_served`, `workload_cancelled`, `workload_errored`, leaves
`workload_pending` unchanged, then sets `error_msg = msg` and
`model_is_loaded = true`, leaving `max_throughput`, `cur_perf`,
`requests_recieved` and `requests_working` unchanged. -/
theorem model_errored_c5_amended (m : Metrics) (msg : String) :
    (m.model_errored msg).model_metrics.workload_received = 0
    ∧ (m.model_errored msg).model_metrics.workload_served = 0
    ∧ (m.model_errored msg).model_metrics.workload_cancelled = 0
    ∧ (m.model_errored msg).model_metrics.workload_errored = 0
    ∧ (m.model_errored msg).model_metrics.workload_pending
      = m.model_metrics.workload_pending
    ∧ (m.model_errored msg).model_metrics.error_msg = some msg
    ∧ (m.model_errored msg).system_metrics.model_is_loaded = true
    ∧ (m.model_errored msg).model_metrics.max_throughput
      = m.model_metrics.max_throughput
    ∧ (m.model_errored msg).model_metrics.cur_perf
      = m.model_metrics.cur_perf
    ∧ (m.model_errored msg).model_metrics.requests_recieved
      = m.model_metrics.requests_recieved
    ∧ (m.model_errored msg).model_metrics.requests_working
      = m.model_metrics.requests_working
    ∧ (m.model_errored msg).system_metrics.model_loading_time
      = m.system_metrics.model_loading_time
    ∧ (m.model_errored msg).update_pending = m.update_pending :=
  ⟨rfl, rfl, rfl, rfl, rfl, rfl, rfl, rfl, rfl, rfl, rfl, rfl, rfl⟩

/-- Claim C6 (counterexample): the post-report reset does not empty
`requests_working`.  After `request_start 2 7` the set is `{7}`; it is
still `{7}` — not `∅` — after `send_metrics_and_reset`. -/
theorem send_reset_c6_counterexample :
    ¬ ((((Metrics.empty 0 "" "" 0 0).request_start 2 7).send_metrics_and_reset
      1 2 0).2.model_metrics.requests_working = ∅) := by
  norm_num [Metrics.empty, ModelMetrics.empty, SystemMetrics.empty,
    Metrics.request_start, Metrics.send_metrics_and_reset,
    ModelMetrics.reset, SystemMetrics.reset, SystemMetrics.update_disk_usage,
    Metrics.compute_autoscaler_data]

/-- Claim C6 (amended): after each autoscaler report (successful or not),
exactly the four counters `workload_received`, `workload_served`,
`workload_cancelled`, `workload_errored` are reset to zero;
`requests_working` is NOT emptied, and `requests_recieved`,
`max_throughput`, `workload_pending`, `cur_perf` and `error_msg` are all
unchanged by the post-report reset of the model metrics. -/
theorem send_reset_c6_amended (m : Metrics) (elapsed now disk_usage : Rat) :
    ((m.send_metrics_and_reset elapsed now disk_usage).2.model_metrics.workload_received = 0)
    ∧ ((m.send_metrics_and_reset elapsed now disk_usage).2.model_metrics.workload_served = 0)
    ∧ ((m.send_metrics_and_reset elapsed now disk_usage).2.model_metrics.workload_cancelled = 0)
    ∧ ((m.send_metrics_and_reset elapsed now disk_usage).2.model_metrics.workload_errored = 0)
    ∧ ((m.send_metrics_and_reset elapsed now disk_usage).2.model_metrics.workload_pending
      = m.model_metrics.workload_pending)
    ∧ ((m.send_metrics_and_reset elapsed now disk_usage).2.model_metrics.cur_perf
      = m.model_metrics.cur_perf)
    ∧ ((m.send_metrics_and_reset elapsed now disk_usage).2.model_metrics.error_msg
      = m.model_metrics.error_msg)
    ∧ ((m.send_metrics_and_reset elapsed now disk_usage).2.model_metrics.max_throughput
      = m.model_metrics.max_throughput)
    ∧ ((m.send_metrics_and_reset elapsed now disk_usage).2.model_metrics.requests_recieved
      = m.model_metrics.requests_recieved)
    ∧ ((m.send_metrics_and_reset elapsed now disk_usage).2.model_metrics.requests_working
      = m.model_metrics.requests_working) :=
  ⟨rfl, rfl, rfl, rfl, rfl, rfl, rfl, rfl, rfl, rfl⟩

/-- Claim C10: `update_pending` is set to true only by `request_end`;
`request_start`, `request_errored`, `request_canceled`, `model_loaded`
and `model_errored` leave it unchanged.  Hence once the model is loaded,
with no update pending and less than the 10-second cadence elapsed, an
errored or cancelled request alone does not make the reporter send,
while a successfully served request does. -/
theorem update_pending_c10 (m : Metrics) (w dt : Rat) (r : Int)
    (now mt : Rat) (msg : String) (elapsed : Rat) :
    ((m.request_start w r).update_pending = m.update_pending)
    ∧ ((m.request_errored w r).update_pending = m.update_pending)
    ∧ ((m.request_canceled w r).update_pending = m.update_pending)
    ∧ ((m.model_loaded now mt).update_pending = m.update_pending)
    ∧ ((m.model_errored msg).update_pending = m.update_pending)
    ∧ ((m.request_end w dt r).update_pending = true)
    ∧ (m.system_metrics.model_is_loaded = true → m.update_pending = false →
        elapsed ≤ 10 →
        ((m.request_errored w r).should_send_update elapsed = false
          ∧ (m.request_canceled w r).should_send_update elapsed = false
          ∧ (m.request_start w r).should_send_update elapsed = false
          ∧ (m.request_end w dt r).should_send_update elapsed = true)) := by
  refine ⟨rfl, rfl, rfl, rfl, rfl, rfl, ?_⟩
  intro hloaded hpending helapsed
  have h10 : ¬ (10 : Rat) < elapsed := not_lt.mpr helapsed
  refine ⟨?_, ?_, ?_, ?_⟩ <;>
    simp [Metrics.should_send_update, Metrics.request_errored,
      Metrics.request_canceled, Metrics.request_start, Metrics.request_end,
      hloaded, hpending, h10]

/-- Witness for C10: in a loaded, quiescent state 5 seconds into the
report interval, an errored request does not trigger a send. -/
theorem update_pending_c10_witness :
    (((Metrics.empty 0 "" "" 0 0).model_loaded 3 100).request_errored
      2 1).should_send_update 5 = false :=
  ((update_pending_c10 ((Metrics.empty 0 "" "" 0 0).model_loaded 3 100)
    2 1 1 0 0 "" 5).2.2.2.2.2.2 rfl rfl (by norm_num)).1

/-- The last at-most-`n` elements of a list number at most `n`. -/
theorem lastN_length_le (n : Nat) (l : List α) : (lastN n l).length ≤ n := by
  simp only [lastN, List.length_drop]
  omega

/-- A rejected envelope leaves the authenticator state unchanged. -/
theorem check_signature_false_state {PK : Type} (pubkey : Option PK)
    (rsaOk : PK → ByteArray → ByteArray → Bool)
    (b64decode : String → Option ByteArray)
    (st : AuthState) (auth_data : AuthData)
    (h : (check_signature pubkey rsaOk b64decode st auth_data).1 = false) :
    (check_signature pubkey rsaOk b64decode st auth_data).2 = st := by
  revert h
  simp only [check_signature]
  split_ifs <;> simp

/-- Claim C1: for every authenticator state (highest reqnum,
recent-message history) and auth envelope: when `reqnum < highest - 100`
the envelope is rejected with the state unchanged, whatever the public
key and signature oracle (no signature verification is consulted); when
its canonical message is already in the history it is rejected with the
state unchanged; on acceptance the highest reqnum becomes
`max(highest, reqnum)` and the history becomes the last 100 entries of
the old history with the canonical message appended; the highest reqnum
never decreases, and a history of at most 100 entries stays at most 100
entries. -/
theorem check_signature_c1 {PK : Type} (pubkey : Option PK)
    (rsaOk : PK → ByteArray → ByteArray → Bool)
    (b64decode : String → Option ByteArray)
    (st : AuthState) (auth_data : AuthData) :
    (auth_data.reqnum < st.reqnum - 100 →
      ∀ (pk2 : Option PK) (rsaOk2 : PK → ByteArray → ByteArray → Bool)
        (b642 : String → Option ByteArray),
        check_signature pk2 rsaOk2 b642 st auth_data = (false, st))
    ∧ (authMessageOf auth_data ∈ st.msg_history →
        check_signature pubkey rsaOk b64decode st auth_data = (false, st))
    ∧ ((check_signature pubkey rsaOk b64decode st auth_data).1 = true →
        (check_signature pubkey rsaOk b64decode st auth_data).2 =
          { reqnum := max st.reqnum auth_data.reqnum
            msg_history :=
              lastN 100 (st.msg_history ++ [authMessageOf auth_data]) })
    ∧ st.reqnum ≤ (check_signature pubkey rsaOk b64decode st auth_data).2.reqnum
    ∧ (st.msg_history.length ≤ 100 →
        (check_signature pubkey rsaOk b64decode st auth_data).2.msg_history.length
          ≤ 100) := by
  have hcast : (MSG_HISTORY_LEN : Int) = 100 := rfl
  refine ⟨?_, ?_, ?_, ?_, ?_⟩
  · intro hstale pk2 rsaOk2 b642
    simp only [check_signature, hcast]
    rw [if_pos hstale]
  · intro hmem
    simp only [check_signature]
    split_ifs <;> rfl
  · simp only [check_signature]
    split_ifs with h1 h2 h3 <;> intro hacc <;> simp_all [max_comm, MSG_HISTORY_LEN]
  · simp only [check_signature]
    split_ifs with h1 h2 h3 <;> simp [le_max_right]
  · intro hlen
    simp only [check_signature]
    split_ifs with h1 h2 h3 <;> simp [hlen, MSG_HISTORY_LEN, lastN_length_le]

/-- Witness for C1: an envelope with reqnum 5 against a state whose
highest reqnum is 200 is stale and is rejected with the state
unchanged. -/
theorem check_signature_c1_witness :
    @check_signature Unit none (fun _ _ _ => false) (fun _ => none)
      ⟨200, []⟩ ⟨"sig", "c", "e", 5, "u"⟩ = (false, ⟨200, []⟩) :=
  (check_signature_c1 none (fun _ _ _ => false) (fun _ => none)
    ⟨200, []⟩ ⟨"sig", "c", "e", 5, "u"⟩).1 (by decide)
    none (fun _ _ _ => false) (fun _ => none)

/-- Successful signature verification exposes a present public key, a
decodable signature and an accepting RSA check over the message bytes. -/
theorem verify_signature_true_elim {PK : Type} (pubkey : Option PK)
    (rsaOk : PK → ByteArray → ByteArray → Bool)
    (b64decode : String → Option ByteArray) (message signature : String)
    (h : verify_signature pubkey rsaOk b64decode message signature = true) :
    ∃ (key : PK) (sigBytes : ByteArray),
      pubkey = some key ∧ b64decode signature = some sigBytes
        ∧ rsaOk key message.toUTF8 sigBytes = true := by
  rcases pubkey with _ | key
  · simp [verify_signature] at h
  · simp only [verify_signature] at h
    rcases hb : b64decode signature with _ | sigBytes
    · rw [hb] at h
      simp at h
    · rw [hb] at h
      exact ⟨key, sigBytes, rfl, rfl, h⟩

/-- Claim C2: the string the signature is checked over is exactly the
JSON serialization of the envelope minus `signature`, with keys in
declaration order `cost, endpoint, reqnum, url`, 4-space indentation and
the `": "` key-value separator (UTF-8 encoded when hashed); verification
succeeds only when the fetched public key is present, the base64 decode
of the signature succeeds and the RSA-PKCS#1 v1.5 / SHA-256 check
accepts exactly those bytes; and when the public key could not be
fetched every envelope is rejected. -/
theorem check_signature_c2 {PK : Type} (pubkey : Option PK)
    (rsaOk : PK → ByteArray → ByteArray → Bool)
    (b64decode : String → Option ByteArray)
    (st : AuthState) (auth_data : AuthData) :
    (∀ m : AuthMessage, authMessageJson m = specCanonicalJson m)
    ∧ ((check_signature pubkey rsaOk b64decode st auth_data).1 = true →
        ∃ (key : PK) (sigBytes : ByteArray),
          pubkey = some key
          ∧ b64decode auth_data.signature = some sigBytes
          ∧ rsaOk key
              (String.toUTF8 (specCanonicalJson (authMessageOf auth_data)))
              sigBytes = true)
    ∧ (pubkey = none →
        (check_signature pubkey rsaOk b64decode st auth_data).1 = false) := by
  have hjson : ∀ m : AuthMessage, authMessageJson m = specCanonicalJson m := by
    intro m
    have q1 : pyJsonQuote "cost" = "\"cost\"" := rfl
    have q2 : pyJsonQuote "endpoint" = "\"endpoint\"" := rfl
    have q3 : pyJsonQuote "reqnum" = "\"reqnum\"" := rfl
    have q4 : pyJsonQuote "url" = "\"url\"" := rfl
    simp only [authMessageJson, pyDumpsIndent4, pyDumpsEntries, pyJsonScalar,
      specCanonicalJson, List.isEmpty_cons, q1, q2, q3, q4]
    apply String.ext
    simp [String.data_append, List.append_assoc]
  refine ⟨hjson, ?_, ?_⟩
  · simp only [check_signature]
    split_ifs with h1 h2 h3
    · intro hacc; simp at hacc
    · intro hacc; simp at hacc
    · intro _hacc
      obtain ⟨key, sigBytes, hpk, hb, hok⟩ :=
        verify_signature_true_elim _ _ _ _ _ h3
      exact ⟨key, sigBytes, hpk, hb, by rw [← hjson]; exact hok⟩
    · intro hacc; simp at hacc
  · intro hnone
    subst hnone
    simp only [check_signature, verify_signature]
    split_ifs <;> simp_all

/-- Witness for C2: with no public key fetched, a concrete envelope is
rejected. -/
theorem check_signature_c2_witness :
    (@check_signature Unit none (fun _ _ _ => false) (fun _ => none)
      ⟨-1, []⟩ ⟨"sig", "c", "e", 1, "u"⟩).1 = false :=
  (check_signature_c2 none (fun _ _ _ => false) (fun _ => none)
    ⟨-1, []⟩ ⟨"sig", "c", "e", 1, "u"⟩).2.2 rfl

/-- Claim C9: for every request whose authentication is rejected (stale
reqnum, replay, bad signature, or missing public key), the handler
returns a 401 response, `request_start` is never called, and no metric
counter or set is mutated by that request: the metrics state (and the
authenticator state) after the request is exactly the state before. -/
theorem handle_request_c9 {PK : Type} (pubkey : Option PK)
    (rsaOk : PK → ByteArray → ByteArray → Bool)
    (b64decode : String → Option ByteArray)
    (st : AuthState) (m : Metrics) (auth_data : AuthData)
    (workload : Rat) (outcome : RequestOutcome)
    (hauth : (check_signature pubkey rsaOk b64decode st auth_data).1 = false) :
    handle_request pubkey rsaOk b64decode st m auth_data workload outcome
      = (401, st, m) := by
  have hst :=
    check_signature_false_state pubkey rsaOk b64decode st auth_data hauth
  have hcs : check_signature pubkey rsaOk b64decode st auth_data
      = (false, st) := Prod.ext_iff.mpr ⟨hauth, hst⟩
  unfold handle_request
  rw [hcs]

/-- Witness for C9: with no public key, a concrete request is rejected
with status 401 and untouched states. -/
theorem handle_request_c9_witness :
    @handle_request Unit none (fun _ _ _ => false) (fun _ => none)
      ⟨-1, []⟩ (Metrics.empty 0 "" "" 0 0) ⟨"sig", "c", "e", 1, "u"⟩ 2
      RequestOutcome.upstream_error
      = (401, ⟨-1, []⟩, Metrics.empty 0 "" "" 0 0) :=
  handle_request_c9 none (fun _ _ _ => false) (fun _ => none)
    ⟨-1, []⟩ (Metrics.empty 0 "" "" 0 0) ⟨"sig", "c", "e", 1, "u"⟩ 2
    RequestOutcome.upstream_error (by decide)

/-- Each request-lifecycle hook preserves the conserved quantity
`received - served - cancelled - errored - pending`. -/
theorem conserved_apply (m : Metrics) (e : MetricEvent) :
    conserved (e.apply m) = conserved m := by
  cases e <;>
    simp only [MetricEvent.apply, conserved, Metrics.request_start,
      Metrics.request_end, Metrics.request_errored,
      Metrics.request_canceled] <;>
    ring

/-- Folding any sequence of request-lifecycle hooks preserves the
conserved quantity. -/
theorem conserved_apply_events (evs : List MetricEvent) (m : Metrics) :
    conserved (apply_events m evs) = conserved m := by
  induction evs generalizing m with
  | nil => rfl
  | cons e rest ih =>
    simp only [apply_events, List.foldl_cons] at *
    rw [ih (e.apply m), conserved_apply]

/-- Claim C4: workload conservation — for every sequence of legal metric
events within one report interval (each terminal hook preceded by its
matching `request_start`, at most one terminal hook per start), starting
from the post-reset state where the four interval counters are zero, at
the end of the interval `workload_received` equals
`workload_served + workload_cancelled + workload_errored +
(workload_pending at end - workload_pending at start)`. -/
theorem workload_conservation_c4 (m : Metrics) (evs : List MetricEvent)
    (_hlegal : legal_events evs = true)
    (h1 : m.model_metrics.workload_received = 0)
    (h2 : m.model_metrics.workload_served = 0)
    (h3 : m.model_metrics.workload_cancelled = 0)
    (h4 : m.model_metrics.workload_errored = 0) :
    (apply_events m evs).model_metrics.workload_received
      = (apply_events m evs).model_metrics.workload_served
        + (apply_events m evs).model_metrics.workload_cancelled
        + (apply_events m evs).model_metrics.workload_errored
        + ((apply_events m evs).model_metrics.workload_pending
            - m.model_metrics.workload_pending) := by
  have hc := conserved_apply_events evs m
  simp only [conserved, h1, h2, h3, h4] at hc
  linarith [hc]

/-- Witness for C4: a legal two-event interval (one start, one matching
end) starting from a fresh metrics state. -/
theorem workload_conservation_c4_witness :
    (apply_events (Metrics.empty 0 "" "" 0 0)
        [MetricEvent.request_start 2 1, MetricEvent.request_end 2 1 1]
      ).model_metrics.workload_received
      = (apply_events (Metrics.empty 0 "" "" 0 0)
          [MetricEvent.request_start 2 1, MetricEvent.request_end 2 1 1]
        ).model_metrics.workload_served
        + (apply_events (Metrics.empty 0 "" "" 0 0)
            [MetricEvent.request_start 2 1, MetricEvent.request_end 2 1 1]
          ).model_metrics.workload_cancelled
        + (apply_events (Metrics.empty 0 "" "" 0 0)
            [MetricEvent.request_start 2 1, MetricEvent.request_end 2 1 1]
          ).model_metrics.workload_errored
        + ((apply_events (Metrics.empty 0 "" "" 0 0)
              [MetricEvent.request_start 2 1, MetricEvent.request_end 2 1 1]
            ).model_metrics.workload_pending
            - (Metrics.empty 0 "" "" 0 0).model_metrics.workload_pending) :=
  workload_conservation_c4 (Metrics.empty 0 "" "" 0 0)
    [MetricEvent.request_start 2 1, MetricEvent.request_end 2 1 1]
    (by decide) rfl rfl rfl rfl

/-- Once `model_loading_time` is cleared, every later report in a
reporter run carries `loadtime = 0`. -/
theorem run_reports_loadtime_zero (ts : List ReportTick) (m : Metrics)
    (h : m.system_metrics.model_loading_time = none) :
    ∀ p ∈ (m.run_reports ts).1, p.1.loadtime = 0 := by
  induction ts generalizing m with
  | nil => simp [Metrics.run_reports]
  | cons t rest ih =>
    intro p hp
    simp only [Metrics.run_reports, List.mem_cons] at hp
    rcases hp with hp | hp
    · subst hp
      simp [Metrics.send_metrics_and_reset, Metrics.compute_autoscaler_data,
        SystemMetrics.update_disk_usage, h]
    · exact ih (m.send_metrics_and_reset t.elapsed t.now t.disk_usage).2 rfl
        p hp

/-- Claim C7 (counterexample): the autoscaler does not necessarily
receive exactly one report with `loadtime > 0`.  After benchmarking
completes (`model_loading_time = 5`), a session whose first report POST
fails (send_ok = false) still clears `model_loading_time` — the reset
runs on any outcome — so the one received report carries `loadtime = 0`
and the autoscaler never sees a positive load time. -/
theorem load_time_c7_counterexample :
    (((Metrics.empty 0 "" "" 0 0).model_loaded 5 200).system_metrics.model_loading_time
        = some 5)
    ∧ ((received_reports (((Metrics.empty 0 "" "" 0 0).model_loaded 5 200).run_reports
          [⟨1, 10, 0, false⟩, ⟨1, 11, 0, true⟩]).1).length = 1)
    ∧ (((received_reports (((Metrics.empty 0 "" "" 0 0).model_loaded 5 200).run_reports
          [⟨1, 10, 0, false⟩, ⟨1, 11, 0, true⟩]).1).filter
        fun d => decide (0 < d.loadtime)).length = 0) := by
  refine ⟨?_, ?_, ?_⟩ <;>
    norm_num [Metrics.empty, SystemMetrics.empty, ModelMetrics.empty,
      Metrics.model_loaded, Metrics.run_reports, Metrics.send_metrics_and_reset,
      Metrics.compute_autoscaler_data, SystemMetrics.update_disk_usage,
      SystemMetrics.reset, ModelMetrics.reset, ModelMetrics.workload_processing,
      received_reports, List.filter]

/-- Claim C7 (amended): `model_loading_time` is set when benchmarking
completes; the first report built afterwards carries it as `loadtime`;
but it is cleared by the reset that follows every report attempt
regardless of whether the POST succeeded, so across a session (with no
further `model_loaded` events) at most one built — and hence at most one
received — report has `loadtime > 0`. -/
theorem load_time_c7_amended (m : Metrics) (t : ReportTick)
    (ts : List ReportTick) :
    (((m.run_reports (t :: ts)).1.head?.map fun p => p.1.loadtime)
        = some (m.system_metrics.model_loading_time.getD 0))
    ∧ ((m.send_metrics_and_reset t.elapsed t.now
          t.disk_usage).2.system_metrics.model_loading_time = none)
    ∧ ((((m.run_reports (t :: ts)).1.map Prod.fst).filter
          fun d => decide (0 < d.loadtime)).length ≤ 1)
    ∧ (((received_reports ((m.run_reports (t :: ts)).1)).filter
          fun d => decide (0 < d.loadtime)).length ≤ 1) := by
  have hz := run_reports_loadtime_zero ts
    (m.send_metrics_and_reset t.elapsed t.now t.disk_usage).2 rfl
  refine ⟨rfl, rfl, ?_, ?_⟩
  · simp only [Metrics.run_reports, List.map_cons, List.filter_cons]
    have hnil : ((((m.send_metrics_and_reset t.elapsed t.now
        t.disk_usage).2.run_reports ts).1.map Prod.fst).filter
          fun d => decide (0 < d.loadtime)) = [] := by
      rw [List.filter_eq_nil_iff]
      intro d hd
      obtain ⟨p, hp, rfl⟩ := List.mem_map.mp hd
      simp [hz p hp]
    split_ifs <;> simp [hnil]
  · simp only [Metrics.run_reports, received_reports, List.filter_cons]
    have hnil : ((((m.send_metrics_and_reset t.elapsed t.now
        t.disk_usage).2.run_reports ts).1.filter fun p => p.2).map
          Prod.fst).filter (fun d => decide (0 < d.loadtime)) = [] := by
      rw [List.filter_eq_nil_iff]
      intro d hd
      obtain ⟨p, hp, rfl⟩ := List.mem_map.mp hd
      simp [hz p (List.mem_of_mem_filter hp)]
    split_ifs <;> simp [received_reports, hnil, List.filter_cons] <;>
      split_ifs <;> simp [hnil]

/-- The seed is a lower bound of a max-fold. -/
theorem le_foldl_max (l : List Rat) (a : Rat) : a ≤ l.foldl max a := by
  induction l generalizing a with
  | nil => simp [List.foldl_nil]
  | cons x xs ih =>
    simp only [List.foldl_cons]
    exact le_trans (le_max_left a x) (ih (max a x))

/-- Every member of the list is bounded by the max-fold. -/
theorem foldl_max_le_mem (l : List Rat) :
    ∀ (a x : Rat), x ∈ l → x ≤ l.foldl max a := by
  induction l with
  | nil => intro a x hx; cases hx
  | cons y ys ih =>
    intro a x hx
    simp only [List.foldl_cons]
    rcases List.mem_cons.mp hx with h | h
    · subst h
      exact le_trans (le_max_right a x) (le_foldl_max ys (max a x))
    · exact ih (max a y) x h

/-- A max-fold either stays at its seed or is a member of the list. -/
theorem foldl_max_mem_or (l : List Rat) :
    ∀ a : Rat, l.foldl max a = a ∨ l.foldl max a ∈ l := by
  induction l with
  | nil => intro a; left; rfl
  | cons y ys ih =>
    intro a
    simp only [List.foldl_cons]
    rcases ih (max a y) with h | h
    · rw [h]
      rcases le_total a y with hay | hya
      · right
        rw [max_eq_right hay]
        exact List.mem_cons_self y ys
      · left
        rw [max_eq_left hya]
    · right
      exact List.mem_cons_of_mem y h

/-- Claim C8: benchmark idempotence over the persistence file.  If
`.has_benchmark` exists, `run_benchmark` issues exactly one warm-up
call, performs no measured runs, leaves the file unchanged and returns
the parsed float.  If it does not exist, it performs exactly `N+1`
sequential calls (`N = benchmark_runs`), discards run 0, returns the
maximum over runs `1..N` of `count_workload() / elapsed` (it equals one
of those throughputs and bounds them all), and writes that maximum back
to the file. -/
theorem run_benchmark_c8 (file_val : Rat) (N : Nat) (runs : Nat → BenchmarkRun)
    (hN : 1 ≤ N)
    (hpos : ∀ i, 1 ≤ i → i ≤ N →
      0 < (runs i).workload ∧ 0 < (runs i).time_elapsed) :
    (run_benchmark (some file_val) N runs
        = { result := file_val, num_api_calls := 1, file_after := some file_val })
    ∧ ((run_benchmark none N runs).num_api_calls = N + 1)
    ∧ (∃ i, 1 ≤ i ∧ i ≤ N ∧
        (run_benchmark none N runs).result
          = (runs i).workload / (runs i).time_elapsed)
    ∧ (∀ i, 1 ≤ i → i ≤ N →
        (runs i).workload / (runs i).time_elapsed
          ≤ (run_benchmark none N runs).result)
    ∧ ((run_benchmark none N runs).file_after
        = some (run_benchmark none N runs).result) := by
  have hdrop : (List.range (N + 1)).drop 1 = (List.range N).map Nat.succ := by
    rw [List.range_succ_eq_map]
    rfl
  refine ⟨rfl, rfl, ?_, ?_, rfl⟩
  · simp only [run_benchmark]
    rcases foldl_max_mem_or
        (((List.range (N + 1)).drop 1).map
          fun i => (runs i).workload / (runs i).time_elapsed) 0 with h | h
    · exfalso
      have h1mem : (1 : Nat) ∈ (List.range (N + 1)).drop 1 := by
        rw [hdrop]
        exact List.mem_map.mpr ⟨0, by simp only [List.mem_range]; omega, rfl⟩
      have hmemT : (runs 1).workload / (runs 1).time_elapsed
          ∈ ((List.range (N + 1)).drop 1).map
            fun i => (runs i).workload / (runs i).time_elapsed :=
        List.mem_map.mpr ⟨1, h1mem, rfl⟩
      have hle := foldl_max_le_mem _ 0 _ hmemT
      rw [h] at hle
      have hpos1 := hpos 1 le_rfl hN
      have hgt : 0 < (runs 1).workload / (runs 1).time_elapsed :=
        div_pos hpos1.1 hpos1.2
      linarith
    · obtain ⟨i, hi, hfi⟩ := List.mem_map.mp h
      rw [hdrop] at hi
      obtain ⟨j, hj, rfl⟩ := List.mem_map.mp hi
      simp only [List.mem_range] at hj
      exact ⟨j + 1, by omega, by omega, hfi.symm⟩
  · intro i h1i hiN
    simp only [run_benchmark]
    apply foldl_max_le_mem
    apply List.mem_map.mpr
    refine ⟨i, ?_, rfl⟩
    rw [hdrop]
    refine List.mem_map.mpr ⟨i - 1, by simp only [List.mem_range]; omega, by omega⟩

/-- Witness for C8: with the persistence file holding 7 and two
configured runs of workload 2 over 1 second, the file-exists branch
returns 7 after a single call. -/
theorem run_benchmark_c8_witness :
    run_benchmark (some 7) 2 (fun _ => ⟨2, 1⟩)
      = { result := 7, num_api_calls := 1, file_after := some 7 } :=
  (run_benchmark_c8 7 2 (fun _ => ⟨2, 1⟩) (by norm_num)
    (fun _ _ _ => ⟨by norm_num, by norm_num⟩)).1
